import Mathlib

/-!
Shallow embedding of the supervisory core of stake-capital/IDEXd
(src/server/index.js): the heartbeat (keepalive) tick, the wallet loader,
the worker runner and the shutdown sequencer.

Modelling conventions:
* JavaScript numbers that hold block heights and millisecond timestamps are
  modelled as `Int` (the source subtracts timestamps, so signedness matters).
* Within one keepalive tick the several calls to `Date.now()` are modelled by
  a single instant `now` passed to the tick.
* A tick exchange that throws (network or protocol failure, including a
  failure while building the signed headers) is modelled by the
  `TickOutcome.exception` constructor; a received HTTP response by
  `TickOutcome.response statusCode message`.
* Observable effects of a tick (status-artifact writes, Sentry reports,
  console logs, downtime-log appends) are collected in `TickResult`.
-/

namespace IDEXd

/-- Millisecond staleness threshold, `MAX_OFFLINE_TIME = 3*60*1000` in
src/server/index.js line 41. -/
def MAX_OFFLINE_TIME : Int := 3 * 60 * 1000

/-- The module-level mutable heartbeat variables of src/server/index.js
lines 72-75: `hasBeenOnline`, `timeSinceLastBlockUpdate`,
`previousWorkerBlock`, `previousWorkerBlockTime`. -/
structure HeartbeatState where
  hasBeenOnline : Bool
  timeSinceLastBlockUpdate : Int
  previousWorkerBlock : Int
  previousWorkerBlockTime : Int
deriving Repr, DecidableEq

/-- Initial values of the heartbeat variables (lines 72-75); the reference
time is initialized to `Date.now()` at module load, abstracted as `t0`. -/
def initialHeartbeatState (t0 : Int) : HeartbeatState :=
  { hasBeenOnline := false
    timeSinceLastBlockUpdate := 0
    previousWorkerBlock := 0
    previousWorkerBlockTime := t0 }

/-- Outcome of the awaited `request(...)` exchange inside one tick. -/
inductive TickOutcome where
  | response (statusCode : Int) (message : String)
  | exception
deriving Repr, DecidableEq

/-- Console log lines produced by a tick (lines 103, 106, 116, 120-122).
`stakingOfflineError` stands for the catch-block pair
`console.log('STAKING OFFLINE'); console.log(e)`. -/
inductive LogLine where
  | stakingOnline (message : String)
  | stakingOffline (message : String)
  | stakingOfflineNoWallet
  | stakingOfflineError
deriving Repr, DecidableEq

/-- One `worker.writeStatus({keepAlive: {status, timestamp, message}})` call
(lines 108-114). -/
structure StatusWrite where
  status : Int
  timestamp : Int
  message : String
deriving Repr, DecidableEq

/-- One line appended to `downtime.log` (line 132): detection time and the
time the last block was processed. -/
structure DowntimeRecord where
  detectedAt : Int
  lastBlockProcessedAt : Int
deriving Repr, DecidableEq

/-- Error raised inside the try block of the tick (a failed request or a
failure building the signed headers). -/
inductive RequestError where
  | requestFailed
deriving Repr, DecidableEq

/-- The try block of `keepalive` (lines 78-118), before the catch: either
raises `RequestError` or returns the updated state together with whether a
request was attempted, the status writes and the log lines. -/
def keepaliveTry (coldWallet : Option String) (now : Int)
    (outcome : TickOutcome) (s : HeartbeatState) :
    Except RequestError (HeartbeatState × Bool × List StatusWrite × List LogLine) :=
  match coldWallet, outcome with
  | none, _ =>
      -- lines 115-118: no wallet configured, no request, hasBeenOnline = true
      Except.ok ({ s with hasBeenOnline := true }, false, [],
        [LogLine.stakingOfflineNoWallet])
  | some _, TickOutcome.exception =>
      -- the awaited request (or header construction) threw
      Except.error RequestError.requestFailed
  | some _, TickOutcome.response code msg =>
      -- lines 100-114: a response was received; 200 marks online; the
      -- outcome is persisted via worker.writeStatus in both cases
      if code = 200 then
        Except.ok ({ s with hasBeenOnline := true }, true,
          [⟨code, now, msg⟩], [LogLine.stakingOnline msg])
      else
        Except.ok (s, true, [⟨code, now, msg⟩], [LogLine.stakingOffline msg])

/-- The block-staleness branch of the finally block (lines 125-130): if the
current worker block equals the recorded one, recompute the accumulated
staleness from the reference time; otherwise record the new block and reset
the reference time (note: the accumulated staleness variable is NOT touched
in that branch). -/
def staleUpdate (currentBlock now : Int) (s : HeartbeatState) : HeartbeatState :=
  if currentBlock = s.previousWorkerBlock then
    { s with timeSinceLastBlockUpdate := now - s.previousWorkerBlockTime }
  else
    { s with previousWorkerBlock := currentBlock, previousWorkerBlockTime := now }

/-- The finally block of `keepalive` (lines 123-135): guarded by
`hasBeenOnline`, update staleness bookkeeping and append a downtime record
when the accumulated staleness strictly exceeds `MAX_OFFLINE_TIME`. -/
def keepaliveFinally (currentBlock now : Int) (s : HeartbeatState) :
    HeartbeatState × List DowntimeRecord :=
  if s.hasBeenOnline then
    let s1 := staleUpdate currentBlock now s
    (s1,
      if s1.timeSinceLastBlockUpdate > MAX_OFFLINE_TIME then
        [⟨now, s1.previousWorkerBlockTime⟩]
      else [])
  else (s, [])

/-- Everything a single keepalive tick produces. -/
structure TickResult where
  state : HeartbeatState
  requestAttempted : Bool
  statusWrites : List StatusWrite
  sentryReports : Nat
  logs : List LogLine
  downtimeAppends : List DowntimeRecord
deriving Repr, DecidableEq

/-- One full `keepalive` tick (lines 77-136): the try block, the catch block
(line 119-122: log, Sentry.captureException, no rethrow) and the finally
block. The function is total: an exception inside the try never escapes. -/
def keepaliveTick (coldWallet : Option String) (currentBlock now : Int)
    (outcome : TickOutcome) (s : HeartbeatState) : TickResult :=
  match keepaliveTry coldWallet now outcome s with
  | Except.ok (s1, req, writes, logs) =>
      let fin := keepaliveFinally currentBlock now s1
      { state := fin.1
        requestAttempted := req
        statusWrites := writes
        sentryReports := 0
        logs := logs
        downtimeAppends := fin.2 }
  | Except.error _ =>
      let fin := keepaliveFinally currentBlock now s
      { state := fin.1
        requestAttempted := true
        statusWrites := []
        sentryReports := 1
        logs := [LogLine.stakingOfflineError]
        downtimeAppends := fin.2 }

/-- Inputs observed by one tick: the worker block counter, the wall clock and
the network outcome. -/
structure TickInput where
  currentBlock : Int
  now : Int
  outcome : TickOutcome
deriving Repr, DecidableEq

/-- Iterated keepalive ticks, as fired by the interval timer: every listed
tick is processed (an exception tick never stops the loop). -/
def runTicks (coldWallet : Option String) (s : HeartbeatState) :
    List TickInput → HeartbeatState × List TickResult
  | [] => (s, [])
  | i :: rest =>
      let r := keepaliveTick coldWallet i.currentBlock i.now i.outcome s
      let tail := runTicks coldWallet r.state rest
      (tail.1, r :: tail.2)

/-- The schedule installed by `startKeepAlive` (lines 188-191): one
immediate invocation of `keepalive`, then `setInterval(keepalive, 30000)`. -/
structure KeepAliveSchedule where
  immediateFirstTick : Bool
  periodMs : Int
deriving Repr, DecidableEq

/-- `startKeepAlive` (lines 188-191). -/
def startKeepAlive : KeepAliveSchedule :=
  { immediateFirstTick := true, periodMs := 30000 }

/-- Contents of `ipc/settings.json` as read by `loadWallet`. -/
structure Settings where
  coldWallet : Option String
  hotWallet : String
  token : String
deriving Repr, DecidableEq

/-- The module-level wallet variables `coldWallet`, `account` (lines 47-48)
together with the `PASSPHRASE` environment value. -/
structure WalletState where
  coldWallet : Option String
  account : Option String
  passphraseEnv : String
deriving Repr, DecidableEq

/-- Where `loadWallet` can fail: reading or parsing `ipc/settings.json`
throws before any assignment; hot-wallet decryption throws after
`coldWallet` has already been assigned. -/
inductive LoadOutcome where
  | parseError
  | decryptError
  | success (account : String)
deriving Repr, DecidableEq

/-- `loadWallet` (lines 138-148). Statement order inside the try block:
`coldWallet = settings.coldWallet` precedes the awaited decryption, and
`process.env.PASSPHRASE = ''` follows it; the catch block only logs. So on
`decryptError` the cold wallet is already set, `account` keeps its previous
value and the passphrase clearing line is never reached. -/
def loadWallet (settings : Settings) (outcome : LoadOutcome)
    (st : WalletState) : WalletState × List String :=
  match outcome with
  | LoadOutcome.parseError =>
      (st, ["error loading settings.json, wrong passphrase?"])
  | LoadOutcome.decryptError =>
      ({ st with coldWallet := settings.coldWallet },
        ["error loading settings.json, wrong passphrase?"])
  | LoadOutcome.success account =>
      ({ coldWallet := settings.coldWallet
         account := some account
         passphraseEnv := "" }, [])

/-- First block computed by `runner` (lines 151-156). `forceSync` is
`process.env.FORCE_SYNC === '1'`; `lastTradeBlock` is the block number of
the most recently persisted trade when one exists; `idexFirstBlock` is the
constant `IDEX_FIRST_BLOCK` imported from ./constants (kept abstract as a
parameter, its source file is external to this module). -/
def computeFirstBlock (forceSync : Bool) (lastTradeBlock : Option Int)
    (idexFirstBlock : Int) : Int :=
  if forceSync then idexFirstBlock
  else
    match lastTradeBlock with
    | some b => b - 1
    | none => idexFirstBlock

/-- The four release steps named in the shutdown array (lines 221-226). -/
inductive ShutdownStep where
  | serverClose
  | storeClose
  | workerClose
  | unlinkStatus
deriving Repr, DecidableEq

/-- A JavaScript runtime error escaping `shutdown`. -/
inductive JsError where
  | workerCloseOnUndefined
  | mapSeriesNotAConstructor
deriving Repr, DecidableEq

/-- What one `shutdown()` call performs. -/
structure ShutdownResult where
  dbClosedFlag : Bool
  intervalCleared : Bool
  stepsStarted : List ShutdownStep
  thrown : Option JsError
deriving Repr, DecidableEq

/-- `shutdown` (lines 218-227). It sets `db._closed`, clears the interval if
installed, then builds the array `[server ? new Promise(server.close) :
Promise.resolve(), db.sequelize.close(), worker.close(),
fs.unlink('ipc/status.json')]`, whose elements are evaluated eagerly left to
right. When `worker` is undefined (startup aborted early) the member access
`worker.close` throws a TypeError, so the unlink element is never evaluated.
When the array does evaluate, `new Promise.mapSeries(...)` still throws a
TypeError: the file never imports bluebird, so `Promise` is the native
constructor and `Promise.mapSeries` is undefined. -/
def shutdown (serverPresent workerPresent intervalPresent : Bool) :
    ShutdownResult :=
  let serverStep := if serverPresent then [ShutdownStep.serverClose] else []
  if workerPresent then
    { dbClosedFlag := true
      intervalCleared := intervalPresent
      stepsStarted := serverStep ++
        [ShutdownStep.storeClose, ShutdownStep.workerClose,
         ShutdownStep.unlinkStatus]
      thrown := some JsError.mapSeriesNotAConstructor }
  else
    { dbClosedFlag := true
      intervalCleared := intervalPresent
      stepsStarted := serverStep ++ [ShutdownStep.storeClose]
      thrown := some JsError.workerCloseOnUndefined }

/-! Helper lemmas shared by the claim theorems. -/

/-- State held by the module variables when control reaches the finally
block: the try block (with its catch) only ever touches `hasBeenOnline`. -/
def tryState (coldWallet : Option String) (outcome : TickOutcome)
    (s : HeartbeatState) : HeartbeatState :=
  match coldWallet, outcome with
  | none, _ => { s with hasBeenOnline := true }
  | some _, TickOutcome.exception => s
  | some _, TickOutcome.response code _ =>
      if code = 200 then { s with hasBeenOnline := true } else s

theorem keepaliveTick_state_eq (cw : Option String) (cb now : Int)
    (o : TickOutcome) (s : HeartbeatState) :
    (keepaliveTick cw cb now o s).state =
      (keepaliveFinally cb now (tryState cw o s)).1 := by
  cases cw with
  | none => cases o <;> rfl
  | some w =>
    cases o with
    | exception => rfl
    | response code msg =>
      by_cases hc : code = 200 <;>
        simp [keepaliveTick, keepaliveTry, tryState, hc]

theorem keepaliveTick_downtime_eq (cw : Option String) (cb now : Int)
    (o : TickOutcome) (s : HeartbeatState) :
    (keepaliveTick cw cb now o s).downtimeAppends =
      (keepaliveFinally cb now (tryState cw o s)).2 := by
  cases cw with
  | none => cases o <;> rfl
  | some w =>
    cases o with
    | exception => rfl
    | response code msg =>
      by_cases hc : code = 200 <;>
        simp [keepaliveTick, keepaliveTry, tryState, hc]

theorem staleUpdate_hasBeenOnline (cb now : Int) (s : HeartbeatState) :
    (staleUpdate cb now s).hasBeenOnline = s.hasBeenOnline := by
  unfold staleUpdate
  split <;> rfl

theorem keepaliveFinally_fst_hasBeenOnline (cb now : Int) (s : HeartbeatState) :
    (keepaliveFinally cb now s).1.hasBeenOnline = s.hasBeenOnline := by
  by_cases h : s.hasBeenOnline = true
  · simp [keepaliveFinally, h, staleUpdate_hasBeenOnline]
  · simp [keepaliveFinally, h]

theorem keepaliveFinally_spec (cb now : Int) (s : HeartbeatState) :
    (keepaliveFinally cb now s).2 =
      if (keepaliveFinally cb now s).1.hasBeenOnline = true ∧
          (keepaliveFinally cb now s).1.timeSinceLastBlockUpdate > MAX_OFFLINE_TIME then
        [⟨now, (keepaliveFinally cb now s).1.previousWorkerBlockTime⟩]
      else [] := by
  by_cases h : s.hasBeenOnline = true
  · simp [keepaliveFinally, h, staleUpdate_hasBeenOnline]
  · simp [keepaliveFinally, h]

theorem tryState_preserves (cw : Option String) (o : TickOutcome)
    (s : HeartbeatState) :
    (tryState cw o s).timeSinceLastBlockUpdate = s.timeSinceLastBlockUpdate ∧
    (tryState cw o s).previousWorkerBlock = s.previousWorkerBlock ∧
    (tryState cw o s).previousWorkerBlockTime = s.previousWorkerBlockTime := by
  cases cw with
  | none => cases o <;> exact ⟨rfl, rfl, rfl⟩
  | some w =>
    cases o with
    | exception => exact ⟨rfl, rfl, rfl⟩
    | response code msg =>
      by_cases hc : code = 200 <;> simp [tryState, hc]

theorem tryState_hasBeenOnline_true (cw : Option String) (o : TickOutcome)
    (s : HeartbeatState) (h : s.hasBeenOnline = true) :
    (tryState cw o s).hasBeenOnline = true := by
  cases cw with
  | none => cases o <;> rfl
  | some w =>
    cases o with
    | exception => exact h
    | response code msg =>
      by_cases hc : code = 200 <;> simp [tryState, hc, h]

theorem keepaliveFinally_unchanged (cb now : Int) (s : HeartbeatState)
    (hon : s.hasBeenOnline = true) (heq : cb = s.previousWorkerBlock) :
    (keepaliveFinally cb now s).1 =
      { s with timeSinceLastBlockUpdate := now - s.previousWorkerBlockTime } := by
  simp [keepaliveFinally, hon, staleUpdate, heq]

theorem keepaliveFinally_changed (cb now : Int) (s : HeartbeatState)
    (hon : s.hasBeenOnline = true) (hne : cb ≠ s.previousWorkerBlock) :
    (keepaliveFinally cb now s).1 =
      { s with previousWorkerBlock := cb, previousWorkerBlockTime := now } := by
  simp [keepaliveFinally, hon, staleUpdate, hne]

theorem keepaliveTick_unchanged_fields (cw : Option String) (cb now : Int)
    (o : TickOutcome) (s : HeartbeatState) (hon : s.hasBeenOnline = true)
    (heq : cb = s.previousWorkerBlock) :
    (keepaliveTick cw cb now o s).state.timeSinceLastBlockUpdate =
        now - s.previousWorkerBlockTime ∧
    (keepaliveTick cw cb now o s).state.previousWorkerBlock =
        s.previousWorkerBlock ∧
    (keepaliveTick cw cb now o s).state.previousWorkerBlockTime =
        s.previousWorkerBlockTime ∧
    (keepaliveTick cw cb now o s).state.hasBeenOnline = true := by
  have hp := tryState_preserves cw o s
  have hon2 := tryState_hasBeenOnline_true cw o s hon
  have heq2 : cb = (tryState cw o s).previousWorkerBlock := by
    rw [hp.2.1]; exact heq
  have hst : (keepaliveTick cw cb now o s).state =
      { tryState cw o s with
        timeSinceLastBlockUpdate :=
          now - (tryState cw o s).previousWorkerBlockTime } := by
    rw [keepaliveTick_state_eq, keepaliveFinally_unchanged _ _ _ hon2 heq2]
  rw [hst]
  exact ⟨by rw [hp.2.2], hp.2.1, hp.2.2, hon2⟩

theorem keepaliveTick_changed_fields (cw : Option String) (cb now : Int)
    (o : TickOutcome) (s : HeartbeatState) (hon : s.hasBeenOnline = true)
    (hne : cb ≠ s.previousWorkerBlock) :
    (keepaliveTick cw cb now o s).state.previousWorkerBlock = cb ∧
    (keepaliveTick cw cb now o s).state.previousWorkerBlockTime = now ∧
    (keepaliveTick cw cb now o s).state.timeSinceLastBlockUpdate =
        s.timeSinceLastBlockUpdate ∧
    (keepaliveTick cw cb now o s).state.hasBeenOnline = true := by
  have hp := tryState_preserves cw o s
  have hon2 := tryState_hasBeenOnline_true cw o s hon
  have hne2 : cb ≠ (tryState cw o s).previousWorkerBlock := by
    rw [hp.2.1]; exact hne
  have hst : (keepaliveTick cw cb now o s).state =
      { tryState cw o s with
        previousWorkerBlock := cb, previousWorkerBlockTime := now } := by
    rw [keepaliveTick_state_eq, keepaliveFinally_changed _ _ _ hon2 hne2]
  rw [hst]
  exact ⟨rfl, rfl, hp.1, hon2⟩

theorem hasBeenOnline_monotonic_tick (cw : Option String) (cb now : Int)
    (o : TickOutcome) (s : HeartbeatState) :
    s.hasBeenOnline ≤ (keepaliveTick cw cb now o s).state.hasBeenOnline := by
  rw [keepaliveTick_state_eq, keepaliveFinally_fst_hasBeenOnline]
  cases cw with
  | none => cases o <;> simp [tryState]
  | some w =>
    cases o with
    | exception => exact le_refl _
    | response code msg =>
      by_cases hc : code = 200 <;> simp [tryState, hc]

theorem hasBeenOnline_monotonic_run (cw : Option String) (s : HeartbeatState)
    (inputs : List TickInput) :
    s.hasBeenOnline ≤ (runTicks cw s inputs).1.hasBeenOnline := by
  induction inputs generalizing s with
  | nil => exact le_refl _
  | cons i rest ih =>
      exact le_trans (hasBeenOnline_monotonic_tick cw i.currentBlock i.now i.outcome s)
        (ih _)

theorem runTicks_length (cw : Option String) (s : HeartbeatState)
    (inputs : List TickInput) :
    ((runTicks cw s inputs).2).length = inputs.length := by
  induction inputs generalizing s with
  | nil => rfl
  | cons i rest ih => simp [runTicks, ih]

/-! Claim theorems. -/

/-- Claim C1 (code bug witness). In `shutdown`, when the worker handle is
null because startup aborted early, the member access `worker.close` throws
a TypeError while the release array is being built, so the removal of the
on-disk status marker is never started and the sequence fails; even with a
worker present the call throws because `new Promise.mapSeries` is not a
valid construct on the native Promise. This contradicts the claim that all
four release steps execute and that a null WorkerHandle is tolerated. -/
theorem shutdown_null_worker_bug :
    ShutdownStep.unlinkStatus ∉ (shutdown false false true).stepsStarted ∧
    (shutdown false false true).thrown = some JsError.workerCloseOnUndefined ∧
    (shutdown true true true).thrown = some JsError.mapSeriesNotAConstructor := by
  exact ⟨by decide, rfl, rfl⟩

/-- Claim C2 (counterexample). On a heartbeat tick where the node has been
online and the observed block (2) differs from the recorded one (1), the
claim says the accumulated staleness is reset to zero; the code leaves the
accumulated staleness variable untouched in that branch, so it stays at its
previous value 999999. -/
theorem keepalive_staleness_reset_counterexample :
    ((2 : Int) ≠ 1) ∧
    (keepaliveTick (some "0xCold") 2 10 (TickOutcome.response 200 "ok")
      { hasBeenOnline := true, timeSinceLastBlockUpdate := 999999,
        previousWorkerBlock := 1, previousWorkerBlockTime := 0 }).state.timeSinceLastBlockUpdate
      = 999999 := by
  exact ⟨by decide, by decide⟩

/-- Claim C2 (amended). For every heartbeat tick evaluated while
`hasBeenOnline` is true: if the observed worker block differs from the
recorded one, the recorded block and the reference time are updated but the
accumulated staleness duration retains its previous value (it is NOT reset
to zero; it is only recomputed on a later tick whose block is unchanged);
if the block is unchanged, the accumulated staleness becomes the elapsed
wall-clock time since the reference time, and it strictly increases across
consecutive such ticks. -/
theorem keepalive_staleness_amended :
    (∀ (cw : Option String) (cb now : Int) (o : TickOutcome) (s : HeartbeatState),
      s.hasBeenOnline = true → cb ≠ s.previousWorkerBlock →
        (keepaliveTick cw cb now o s).state.previousWorkerBlock = cb ∧
        (keepaliveTick cw cb now o s).state.previousWorkerBlockTime = now ∧
        (keepaliveTick cw cb now o s).state.timeSinceLastBlockUpdate =
          s.timeSinceLastBlockUpdate) ∧
    (∀ (cw : Option String) (cb now : Int) (o : TickOutcome) (s : HeartbeatState),
      s.hasBeenOnline = true → cb = s.previousWorkerBlock →
        (keepaliveTick cw cb now o s).state.timeSinceLastBlockUpdate =
          now - s.previousWorkerBlockTime) ∧
    (∀ (cw1 cw2 : Option String) (cb now1 now2 : Int)
        (o1 o2 : TickOutcome) (s : HeartbeatState),
      s.hasBeenOnline = true → cb = s.previousWorkerBlock → now1 < now2 →
        (keepaliveTick cw1 cb now1 o1 s).state.timeSinceLastBlockUpdate <
        (keepaliveTick cw2 cb now2 o2
          (keepaliveTick cw1 cb now1 o1 s).state).state.timeSinceLastBlockUpdate) := by
  refine ⟨?_, ?_, ?_⟩
  · intro cw cb now o s hon hne
    have h := keepaliveTick_changed_fields cw cb now o s hon hne
    exact ⟨h.1, h.2.1, h.2.2.1⟩
  · intro cw cb now o s hon heq
    exact (keepaliveTick_unchanged_fields cw cb now o s hon heq).1
  · intro cw1 cw2 cb now1 now2 o1 o2 s hon heq hlt
    have h1 := keepaliveTick_unchanged_fields cw1 cb now1 o1 s hon heq
    have heq2 : cb = (keepaliveTick cw1 cb now1 o1 s).state.previousWorkerBlock := by
      rw [h1.2.1]; exact heq
    have h2 := keepaliveTick_unchanged_fields cw2 cb now2 o2
      (keepaliveTick cw1 cb now1 o1 s).state h1.2.2.2 heq2
    rw [h1.1, h2.1, h1.2.2.1]
    omega

/-- Claim C2 (witness for the amended theorem): concrete instances of its
three parts, each hypothesis discharged at concrete inputs. -/
theorem keepalive_staleness_amended_witness :
    ((keepaliveTick (some "0xCold") 5 1000 (TickOutcome.response 200 "ok")
        { hasBeenOnline := true, timeSinceLastBlockUpdate := 7,
          previousWorkerBlock := 4, previousWorkerBlockTime := 100 }).state.timeSinceLastBlockUpdate
      = 7) ∧
    ((keepaliveTick (some "0xCold") 4 1000 (TickOutcome.response 200 "ok")
        { hasBeenOnline := true, timeSinceLastBlockUpdate := 7,
          previousWorkerBlock := 4, previousWorkerBlockTime := 100 }).state.timeSinceLastBlockUpdate
      = 1000 - 100) ∧
    ((keepaliveTick (some "0xCold") 4 1000 (TickOutcome.response 200 "ok")
        { hasBeenOnline := true, timeSinceLastBlockUpdate := 7,
          previousWorkerBlock := 4, previousWorkerBlockTime := 100 }).state.timeSinceLastBlockUpdate <
      (keepaliveTick (some "0xCold") 4 2000 (TickOutcome.response 200 "ok")
        (keepaliveTick (some "0xCold") 4 1000 (TickOutcome.response 200 "ok")
          { hasBeenOnline := true, timeSinceLastBlockUpdate := 7,
            previousWorkerBlock := 4, previousWorkerBlockTime := 100 }).state).state.timeSinceLastBlockUpdate) := by
  refine ⟨(keepalive_staleness_amended.1 (some "0xCold") 5 1000
      (TickOutcome.response 200 "ok") _ rfl (by decide)).2.2,
    keepalive_staleness_amended.2.1 (some "0xCold") 4 1000
      (TickOutcome.response 200 "ok") _ rfl rfl,
    keepalive_staleness_amended.2.2 (some "0xCold") (some "0xCold") 4 1000 2000
      (TickOutcome.response 200 "ok") (TickOutcome.response 200 "ok") _ rfl rfl
      (by decide)⟩

/-- Claim C3: on every heartbeat tick — whatever the network outcome (200
response, non-200 response, thrown exception) and also on the no-identity
branch — a downtime record carrying the detection time and the last-advance
time is appended if and only if the node has been online at least once and
the accumulated staleness strictly exceeds `MAX_OFFLINE_TIME` (3 minutes);
the strict inequality means exactly 180000 ms does not trigger an append. -/
theorem keepalive_downtime_append_iff (cw : Option String) (cb now : Int)
    (o : TickOutcome) (s : HeartbeatState) :
    (keepaliveTick cw cb now o s).downtimeAppends =
      if (keepaliveTick cw cb now o s).state.hasBeenOnline = true ∧
          (keepaliveTick cw cb now o s).state.timeSinceLastBlockUpdate >
            MAX_OFFLINE_TIME then
        [⟨now, (keepaliveTick cw cb now o s).state.previousWorkerBlockTime⟩]
      else [] := by
  rw [keepaliveTick_downtime_eq, keepaliveTick_state_eq]
  exact keepaliveFinally_spec cb now (tryState cw o s)

/-- Claim C4: a tick whose outbound exchange throws is caught inside the
tick — one report to the error sink, the offline log line, `hasBeenOnline`
unchanged (an offline tick) — and the tick returns normally; the loop is
started with one immediate invocation and a fixed 30000 ms period, and
every scheduled tick of a run is processed (an exception tick never stops
the iteration). -/
theorem keepalive_exception_caught_loop_continues :
    (∀ (w : String) (cb now : Int) (s : HeartbeatState),
      (keepaliveTick (some w) cb now TickOutcome.exception s).sentryReports = 1 ∧
      (keepaliveTick (some w) cb now TickOutcome.exception s).logs =
        [LogLine.stakingOfflineError] ∧
      (keepaliveTick (some w) cb now TickOutcome.exception s).state.hasBeenOnline =
        s.hasBeenOnline ∧
      (keepaliveTick (some w) cb now TickOutcome.exception s).requestAttempted = true) ∧
    startKeepAlive.immediateFirstTick = true ∧
    startKeepAlive.periodMs = 30000 ∧
    (∀ (cw : Option String) (s : HeartbeatState) (inputs : List TickInput),
      ((runTicks cw s inputs).2).length = inputs.length) := by
  refine ⟨?_, rfl, rfl, runTicks_length⟩
  intro w cb now s
  refine ⟨rfl, rfl, ?_, rfl⟩
  rw [keepaliveTick_state_eq, keepaliveFinally_fst_hasBeenOnline]
  rfl

/-- Claim C5 (counterexample). The claim says every tick persists its
outcome to the status artifact, the thrown-exception and no-identity
branches included; on both of those branches the code never calls
`worker.writeStatus`, so no status write is produced. -/
theorem keepalive_status_write_counterexample :
    (keepaliveTick (some "0xCold") 5 1000 TickOutcome.exception
      (initialHeartbeatState 0)).statusWrites = [] ∧
    (keepaliveTick none 5 1000 TickOutcome.exception
      (initialHeartbeatState 0)).statusWrites = [] := by
  exact ⟨rfl, rfl⟩

/-- Claim C5 (amended). A heartbeat tick persists its outcome (status code,
timestamp, server message) to the status artifact exactly when an HTTP
response is received (status 200 or not); a tick whose exchange throws and
a tick on the no-identity branch persist nothing. -/
theorem keepalive_status_write_amended (cw : Option String) (cb now : Int)
    (o : TickOutcome) (s : HeartbeatState) :
    (keepaliveTick cw cb now o s).statusWrites =
      (match cw, o with
       | some _, TickOutcome.response code msg => [⟨code, now, msg⟩]
       | _, _ => []) := by
  cases cw with
  | none => cases o <;> rfl
  | some w =>
    cases o with
    | exception => rfl
    | response code msg =>
      by_cases hc : code = 200 <;> simp [keepaliveTick, keepaliveTry, hc]

/-- Claim C6: a heartbeat tick executed while no staking identity is
configured makes no outbound request and leaves the tick with
`hasBeenOnline = true`. -/
theorem keepalive_no_wallet_tick (cb now : Int) (o : TickOutcome)
    (s : HeartbeatState) :
    (keepaliveTick none cb now o s).requestAttempted = false ∧
    (keepaliveTick none cb now o s).state.hasBeenOnline = true := by
  refine ⟨by cases o <;> rfl, ?_⟩
  rw [keepaliveTick_state_eq, keepaliveFinally_fst_hasBeenOnline]
  cases o <;> rfl

/-- Claim C7: the first scanning block is the genesis-of-interest block when
the forced-full-resync configuration is set, regardless of persisted state;
otherwise it is B − 1 when a most-recently-persisted trade with block B
exists, and the genesis-of-interest block when none does. -/
theorem runner_first_block (g b : Int) (lt : Option Int) :
    computeFirstBlock true lt g = g ∧
    computeFirstBlock false (some b) g = b - 1 ∧
    computeFirstBlock false none g = g := by
  exact ⟨rfl, rfl, rfl⟩

/-- Claim C8: `hasBeenOnline` starts false and is monotonic — every
keepalive tick, and every run of ticks, either leaves it unchanged or sets
it to true, never resetting it from true to false (on `Bool`, `≤` is
exactly false-to-true monotonicity). -/
theorem hasBeenOnline_monotonic :
    (∀ t0 : Int, (initialHeartbeatState t0).hasBeenOnline = false) ∧
    (∀ (cw : Option String) (cb now : Int) (o : TickOutcome) (s : HeartbeatState),
      s.hasBeenOnline ≤ (keepaliveTick cw cb now o s).state.hasBeenOnline) ∧
    (∀ (cw : Option String) (s : HeartbeatState) (inputs : List TickInput),
      s.hasBeenOnline ≤ (runTicks cw s inputs).1.hasBeenOnline) := by
  exact ⟨fun _ => rfl, hasBeenOnline_monotonic_tick, hasBeenOnline_monotonic_run⟩

/-- Claim C9 (counterexample). The claim says the passphrase is cleared
after every completed credential load, decryption failure included; when
decryption fails the clearing assignment is never reached, so the
passphrase value survives in process-visible configuration. -/
theorem loadWallet_passphrase_counterexample :
    ((loadWallet
        { coldWallet := some "0xCold", hotWallet := "blob", token := "tok" }
        LoadOutcome.decryptError
        { coldWallet := none, account := none, passphraseEnv := "pw" }).1.passphraseEnv
      = "pw") ∧
    ("pw" : String) ≠ "" := by
  exact ⟨rfl, by decide⟩

/-- Claim C9 (amended). The passphrase value is cleared from
process-visible configuration exactly when the credential load succeeds;
when settings parsing or hot-wallet decryption fails, it is left
unchanged. -/
theorem loadWallet_passphrase_amended (settings : Settings)
    (st : WalletState) (acct : String) :
    ((loadWallet settings (LoadOutcome.success acct) st).1.passphraseEnv = "") ∧
    ((loadWallet settings LoadOutcome.decryptError st).1.passphraseEnv =
      st.passphraseEnv) ∧
    ((loadWallet settings LoadOutcome.parseError st).1.passphraseEnv =
      st.passphraseEnv) := by
  exact ⟨rfl, rfl, rfl⟩

/-- Claim C10: the credential loader assigns the cold-wallet address before
attempting decryption, so after a failed decryption the cold wallet holds
the settings value while the signing account keeps its previous (unset)
value; every subsequent tick with a cold wallet present takes the staking
branch and attempts the signed outbound request, whose failure is caught as
an offline tick (one error-sink report, `hasBeenOnline` unchanged). -/
theorem loadWallet_decrypt_failure_staking_branch (settings : Settings)
    (st : WalletState) (w : String) (cb now : Int) (s : HeartbeatState) :
    ((loadWallet settings LoadOutcome.decryptError st).1.coldWallet =
      settings.coldWallet) ∧
    ((loadWallet settings LoadOutcome.decryptError st).1.account = st.account) ∧
    ((keepaliveTick (some w) cb now TickOutcome.exception s).requestAttempted
      = true) ∧
    ((keepaliveTick (some w) cb now TickOutcome.exception s).sentryReports = 1) ∧
    ((keepaliveTick (some w) cb now TickOutcome.exception s).state.hasBeenOnline
      = s.hasBeenOnline) := by
  refine ⟨rfl, rfl, rfl, rfl, ?_⟩
  rw [keepaliveTick_state_eq, keepaliveFinally_fst_hasBeenOnline]
  rfl

end IDEXd
